import Mathlib

/-!
Shallow embedding of the browser-side i18n and component-loader logic of the
stellar-aiz.github.io static site (docs/assets/js/i18n.js and
docs/assets/js/components.js).

JavaScript strings are modelled as `List Char` (`JStr`); the browser globals
read by the code (`window.location.pathname`, `window.location.hash`,
`localStorage.getItem(STORAGE_KEY)`, `navigator.language || navigator.userLanguage`)
are gathered into an explicit environment record `Env`.  Side effects
(localStorage writes, navigations, console warnings, DOM mutation, events)
are returned as explicit result records.
-/

/-- JavaScript strings are modelled as lists of characters. -/
abbrev JStr := List Char

/-- Embed a Lean string literal as a `JStr`. -/
def str (s : String) : JStr := s.data

/-- JS `s.startsWith(p)`. -/
def jsStartsWith : JStr → JStr → Bool
  | _, [] => true
  | [], _ :: _ => false
  | c :: s, p :: ps => c == p && jsStartsWith s ps

/-- JS `s.includes(sub)` (substring containment). -/
def jsIncludes : JStr → JStr → Bool
  | [], sub => jsStartsWith [] sub
  | c :: t, sub => jsStartsWith (c :: t) sub || jsIncludes t sub

/-- JS truthiness of a nullable string: `null`/`undefined` and the empty string are falsy. -/
def jsTruthy : Option JStr → Bool
  | none => false
  | some s => !s.isEmpty

/-- The browser state read by the scripts. `browserLang` models the value of
`navigator.language || navigator.userLanguage`, with `[]` standing for the
falsy case (both absent). `savedLanguage` models
`localStorage.getItem(STORAGE_KEY)`, with `none` for `null` and
for a storage failure (the code catches and returns `null`). -/
structure Env where
  pathname : JStr
  hash : JStr
  savedLanguage : Option JStr
  browserLang : JStr

/-- Models `i18n.LANGUAGES`, the list [ja, en]. -/
def LANGUAGES : List JStr := [str "ja", str "en"]

/-- Models `i18n.DEFAULT_LANGUAGE`, namely ja. -/
def DEFAULT_LANGUAGE : JStr := str "ja"

/-- Models `i18n.getLanguageFromURL()`: `en` when the path starts with `/en/` or
equals `/en`, else `ja`. -/
def getLanguageFromURL (env : Env) : JStr :=
  let path := env.pathname
  if jsStartsWith path (str "/en/") || path == str "/en" then str "en"
  else str "ja"

/-- Models `i18n.getSavedLanguage()`: reads localStorage (failures already folded
into the environment as `none`). -/
def getSavedLanguage (env : Env) : Option JStr :=
  env.savedLanguage

/-- Models `i18n.getBrowserLanguage()`: `en` when the browser language tag is
truthy and lower-cases to something starting with `en`, else `ja`. -/
def getBrowserLanguage (env : Env) : JStr :=
  let browserLang := env.browserLang
  if !browserLang.isEmpty && jsStartsWith (browserLang.map Char.toLower) (str "en") then
    str "en"
  else
    str "ja"

/-- Models `i18n.detectLanguage()`: computes the URL, saved and browser languages
but returns the URL-derived one. -/
def detectLanguage (env : Env) : JStr :=
  let urlLang := getLanguageFromURL env
  let _savedLang := getSavedLanguage env
  let _browserLang := getBrowserLanguage env
  urlLang

/-- Models `i18n.getRelativePath()`: strips a leading `/en` (as `path.substring(3)`)
when the path starts with `/en/`, maps the bare `/en` to `/`, else returns
the path unchanged. -/
def getRelativePath (env : Env) : JStr :=
  let path := env.pathname
  if jsStartsWith path (str "/en/") then path.drop 3
  else if path == str "/en" then str "/"
  else path

/-- Models `i18n.buildLanguageURL(targetLang)`: prefixes the relative path with
`/en` for English (root becomes `/en/`), uses the bare relative path for
Japanese, and appends the current hash. -/
def buildLanguageURL (env : Env) (targetLang : JStr) : JStr :=
  let relativePath := getRelativePath env
  let hash := env.hash
  if targetLang == str "en" then
    (str "/en" ++ (if relativePath == str "/" then str "/" else relativePath)) ++ hash
  else
    relativePath ++ hash

/-- Effects of `i18n.switchLanguage(targetLang)`. -/
structure SwitchResult where
  warnedUnsupported : Bool
  savedPref : Option JStr
  navigatedTo : Option JStr
deriving DecidableEq

/-- Models `i18n.switchLanguage(targetLang)`: warns and bails on an unsupported
language; otherwise saves the preference and navigates
(`window.location.href = targetURL`) when the target URL differs from
`pathname + hash`. -/
def switchLanguage (env : Env) (targetLang : JStr) : SwitchResult :=
  if !(LANGUAGES.contains targetLang) then
    { warnedUnsupported := true, savedPref := none, navigatedTo := none }
  else
    let targetURL := buildLanguageURL env targetLang
    let currentPath := env.pathname ++ env.hash
    { warnedUnsupported := false
      savedPref := some targetLang
      navigatedTo := if targetURL != currentPath then some targetURL else none }

/-- Models `i18n.shouldAutoRedirect()`: false when a saved preference is (truthily)
present; otherwise true exactly when the URL language is `ja` and the
browser language is `en`. -/
def shouldAutoRedirect (env : Env) : Bool :=
  let savedLang := getSavedLanguage env
  if jsTruthy savedLang then false
  else
    let currentLang := getLanguageFromURL env
    let browserLang := getBrowserLanguage env
    currentLang == str "ja" && browserLang == str "en"

/-- Models `i18n.handleAutoRedirect()`: when `shouldAutoRedirect`, performs
`window.location.replace` on the URL built for `en`; the returned option is
the replace target (`some` ↔ the JS function returned `true`). -/
def handleAutoRedirect (env : Env) : Option JStr :=
  if shouldAutoRedirect env then some (buildLanguageURL env (str "en")) else none

/-- Effects of `i18n.init()`. -/
structure InitResult where
  redirectedTo : Option JStr
  savedPref : Option JStr
deriving DecidableEq

/-- Models `i18n.init()`: auto-redirect first (and stop if it fired); otherwise save
the current URL language when no saved preference is (truthily) present. -/
def init (env : Env) : InitResult :=
  match handleAutoRedirect env with
  | some url => { redirectedTo := some url, savedPref := none }
  | none =>
    let savedLang := getSavedLanguage env
    let currentLang := getLanguageFromURL env
    if !(jsTruthy savedLang) then
      { redirectedTo := none, savedPref := some currentLang }
    else
      { redirectedTo := none, savedPref := none }

/-!
Embedding of docs/assets/js/components.js (`ComponentLoader`).
-/

/-- An entry of the `ComponentLoader` registry. -/
structure Component where
  selector : JStr
  file : JStr
deriving DecidableEq

/-- Models `this.components`: the fixed registry, in insertion order
(`Object.keys` order: header, footer). -/
def components : List (JStr × Component) :=
  [(str "header", { selector := str "#header-placeholder", file := str "header.html" }),
   (str "footer", { selector := str "#footer-placeholder", file := str "footer.html" })]

/-- Models `this.components[name]` (as used by `loadComponent`/`getComponentFile`). -/
def lookupComponent (name : JStr) : Option Component :=
  components.lookup name

/-- Models `ComponentLoader.isEnglishPage()`. -/
def isEnglishPage (env : Env) : Bool :=
  let path := env.pathname
  jsStartsWith path (str "/en/") || path == str "/en"

/-- JS `s.replace(pat, rep)` with a plain-string pattern: replaces the first
occurrence only. -/
def replaceFirst (pat rep : JStr) : JStr → JStr
  | [] => if pat.isEmpty then rep else []
  | c :: t =>
    if jsStartsWith (c :: t) pat then rep ++ (c :: t).drop pat.length
    else c :: replaceFirst pat rep t

/-- Models `ComponentLoader.getComponentFile(name)`: `null` for unknown components;
on an English page `header.html ↦ header-en.html`, else the base file. -/
def getComponentFile (env : Env) (name : JStr) : Option JStr :=
  match lookupComponent name with
  | none => none
  | some component =>
    if isEnglishPage env then
      some (replaceFirst (str ".html") [] component.file ++ str "-en.html")
    else
      some component.file

/-- The URL `loadComponent` fetches: `${this.componentsPath}/${file}` (a JS
`null` file interpolates as the text `null`). -/
def componentURL (env : Env) (name : JStr) : JStr :=
  str "/components/" ++
    (match getComponentFile env name with
     | some file => file
     | none => str "null")

/-- Outcome of one `fetch` of a fragment URL: `ok body` for a successful
response with its text, `httpError status` for `!response.ok`, and
`networkError` for a rejected fetch. -/
inductive FetchResult where
  | ok (body : JStr)
  | httpError (status : Nat)
  | networkError
deriving DecidableEq

/-- The page `ComponentLoader` operates on: which selectors resolve to a
placeholder element, and what each fetched URL yields. -/
structure Page where
  hasSelector : JStr → Bool
  fetch : JStr → FetchResult

/-- Effects of `ComponentLoader.loadComponent(name)`: `warned` for the two
`console.warn` early returns, `injected` is the markup written into the
placeholder (`none` = placeholder untouched), `eventDispatched` is the
component name carried by the `componentLoaded` event, `errorLogged` for the
`console.error` in the catch. -/
structure LoadResult where
  warned : Bool
  injected : Option JStr
  eventDispatched : Option JStr
  errorLogged : Bool
deriving DecidableEq

/-- Models `ComponentLoader.loadComponent(name)`: warn-and-return on an unknown
name or a missing placeholder; otherwise fetch the resolved file, and either
inject the body and dispatch `componentLoaded`, or catch (non-ok status or
transport failure) and log, leaving the placeholder untouched. -/
def loadComponent (env : Env) (page : Page) (name : JStr) : LoadResult :=
  match lookupComponent name with
  | none =>
    { warned := true, injected := none, eventDispatched := none, errorLogged := false }
  | some component =>
    if page.hasSelector component.selector then
      match page.fetch (componentURL env name) with
      | .ok html =>
        { warned := false, injected := some html, eventDispatched := some name,
          errorLogged := false }
      | .httpError _ =>
        { warned := false, injected := none, eventDispatched := none, errorLogged := true }
      | .networkError =>
        { warned := false, injected := none, eventDispatched := none, errorLogged := true }
    else
      { warned := true, injected := none, eventDispatched := none, errorLogged := false }

/-- Models `Object.keys(this.components)`. -/
def componentNames : List JStr :=
  components.map Prod.fst

/-- The settled outcome of every component load attempted by `loadAll`
(`Promise.all` over `componentNames`), in registry order. -/
def loadAllResults (env : Env) (page : Page) : List (JStr × LoadResult) :=
  componentNames.map (fun name => (name, loadComponent env page name))

/-- Observable steps of `ComponentLoader.loadAll()`: each per-component load
attempt settling (with whether markup was injected), then the Flowbite
re-initialization post-step (`invoked` = the global hook existed and was
called; `false` = no-op), then the nav-highlighting post-step. -/
inductive Event where
  | settled (name : JStr) (injected : Bool)
  | flowbiteStep (invoked : Bool)
  | navHighlightStep
deriving DecidableEq

/-- Models `ComponentLoader.initFlowbite()`: calls the global `initFlowbite` hook
only when it is present (the JS typeof check reports a function). -/
def initFlowbiteEvents (hasFlowbiteHook : Bool) : List Event :=
  [Event.flowbiteStep hasFlowbiteHook]

/-- Models `ComponentLoader.loadAll()`: awaits all component loads
(`await Promise.all`), then runs `initFlowbite()` and `highlightActiveNav()`
in that order. -/
def loadAllTrace (env : Env) (page : Page) (hasFlowbiteHook : Bool) : List Event :=
  ((loadAllResults env page).map
    (fun nr => Event.settled nr.1 nr.2.injected.isSome))
  ++ initFlowbiteEvents hasFlowbiteHook
  ++ [Event.navHighlightStep]

/-- A `.nav-link[data-page]` element: its `data-page` attribute, its class
list, and its `aria-current` attribute. -/
structure NavLink where
  dataPage : JStr
  classes : List JStr
  ariaCurrent : Option JStr
deriving DecidableEq

/-- Models `classList.add(c)`: appends unless already present. -/
def addClass (cs : List JStr) (c : JStr) : List JStr :=
  if cs.contains c then cs else cs ++ [c]

/-- Models `classList.remove(c)`. -/
def removeClass (cs : List JStr) (c : JStr) : List JStr :=
  cs.filter (fun x => !(x == c))

/-- The path `highlightActiveNav` compares against:
the regex strip of the leading `/en` with the empty-string-to-`/`
fallback on English pages, and the raw pathname otherwise. -/
def normalizedNavPath (env : Env) : JStr :=
  let currentPath := env.pathname
  if isEnglishPage env then
    let stripped := if jsStartsWith currentPath (str "/en") then currentPath.drop 3
                    else currentPath
    if stripped.isEmpty then str "/" else stripped
  else
    currentPath

/-- The `isActive` computation in `highlightActiveNav` for one link, given its
`data-page` value. -/
def navIsActive (env : Env) (page : JStr) : Bool :=
  let currentPath := normalizedNavPath env
  if page == str "home" && (currentPath == str "/" || currentPath == str "/index.html") then
    true
  else if !page.isEmpty && jsIncludes currentPath (str "/pages/" ++ page ++ str "/") then
    true
  else
    false

/-- The marking applied to an active link: add `text-blue-600` and
`md:text-blue-600`, remove `text-gray-900`, set `aria-current="page"`. -/
def applyActiveNav (l : NavLink) : NavLink :=
  { l with
    classes :=
      removeClass
        (addClass (addClass l.classes (str "text-blue-600")) (str "md:text-blue-600"))
        (str "text-gray-900")
    ariaCurrent := some (str "page") }

/-- The `forEach` body of `highlightActiveNav` on one link: mark when
active, leave untouched otherwise. -/
def highlightNavLink (env : Env) (l : NavLink) : NavLink :=
  if navIsActive env l.dataPage then applyActiveNav l else l

/-- Models `ComponentLoader.highlightActiveNav()` over the page collection of
`.nav-link[data-page]` elements. -/
def highlightActiveNav (env : Env) (links : List NavLink) : List NavLink :=
  links.map (highlightNavLink env)

/-- A link carries the active marking: both blue classes and
`aria-current="page"`. -/
def isMarkedActive (l : NavLink) : Bool :=
  l.classes.contains (str "text-blue-600") &&
  l.classes.contains (str "md:text-blue-600") &&
  l.ariaCurrent == some (str "page")

/-! Helper lemmas. -/

theorem jsStartsWith_iff (s p : JStr) : jsStartsWith s p = true ↔ ∃ t, s = p ++ t := by
  induction p generalizing s with
  | nil => simp [jsStartsWith]
  | cons q qs ih =>
    cases s with
    | nil => simp [jsStartsWith]
    | cons c t => simp [jsStartsWith, ih, And.comm]

theorem getRelativePath_leadingSlash (env : Env)
    (h : jsStartsWith env.pathname (str "/") = true) :
    jsStartsWith (getRelativePath env) (str "/") = true := by
  unfold getRelativePath
  by_cases h1 : jsStartsWith env.pathname (str "/en/") = true
  · obtain ⟨t, ht⟩ := (jsStartsWith_iff _ _).1 h1
    simp only [h1, if_true]
    rw [ht]
    have hdrop : (str "/en/" ++ t).drop 3 = '/' :: t := rfl
    rw [hdrop]
    simp [str, jsStartsWith]
  · by_cases h2 : (env.pathname == str "/en") = true
    · simp [h1, h2]
      decide
    · simp [h1, h2]
      exact h

theorem en_concat_startsWith (r : JStr) (h : jsStartsWith r (str "/") = true) :
    jsStartsWith (str "/en" ++ r) (str "/en/") = true := by
  obtain ⟨t, rfl⟩ := (jsStartsWith_iff _ _).1 h
  show jsStartsWith ('/' :: 'e' :: 'n' :: '/' :: t) ('/' :: 'e' :: 'n' :: '/' :: []) = true
  simp [jsStartsWith]

/-- Claim C1: `shouldAutoRedirect` is true exactly when no persisted preference
exists, the URL-resolved locale is the default `ja`, and the detected
browser locale is `en`; in every other of the 2×2×2 cases (in particular
whenever a persisted preference exists) it is false. -/
theorem shouldAutoRedirect_truth_table (env : Env)
    (hw : ∀ l, env.savedLanguage = some l → l ≠ []) :
    shouldAutoRedirect env = true ↔
      env.savedLanguage = none ∧ getLanguageFromURL env = str "ja" ∧
        getBrowserLanguage env = str "en" := by
  cases hs : env.savedLanguage with
  | some l =>
    have hl : l.isEmpty = false := by
      cases l with
      | nil => exact absurd rfl (hw [] hs)
      | cons c t => rfl
    simp [shouldAutoRedirect, getSavedLanguage, jsTruthy, hs, hl]
  | none =>
    simp [shouldAutoRedirect, getSavedLanguage, jsTruthy, hs]

theorem shouldAutoRedirect_truth_table_witness :
    shouldAutoRedirect ⟨str "/", [], none, str "en-US"⟩ = true :=
  (shouldAutoRedirect_truth_table ⟨str "/", [], none, str "en-US"⟩
      (fun _ h => nomatch h)).mpr ⟨rfl, by decide, by decide⟩

/-- Claim C5: concrete locale round-trips of `getRelativePath`/`buildLanguageURL`:
`/services/` ↦ `/en/services/` ↦ `/services/`, `/` ↦ `/en/` (not bare `/en`),
`/en/` and bare `/en` ↦ `/`, and the bare `/en` path is treated as the
English root. -/
theorem buildLanguageURL_concrete_roundtrips :
    buildLanguageURL ⟨str "/services/", [], none, []⟩ (str "en") = str "/en/services/" ∧
    buildLanguageURL ⟨str "/en/services/", [], none, []⟩ (str "ja") = str "/services/" ∧
    buildLanguageURL ⟨str "/", [], none, []⟩ (str "en") = str "/en/" ∧
    buildLanguageURL ⟨str "/en/", [], none, []⟩ (str "ja") = str "/" ∧
    buildLanguageURL ⟨str "/en", [], none, []⟩ (str "ja") = str "/" ∧
    getLanguageFromURL ⟨str "/en", [], none, []⟩ = str "en" ∧
    getRelativePath ⟨str "/en", [], none, []⟩ = str "/" ∧
    buildLanguageURL ⟨str "/en", [], none, []⟩ (str "en") = str "/en/" := by
  decide

/-- Claim C9: `detectLanguage` coincides with `getLanguageFromURL` on every
environment, and depends only on the pathname — the saved preference and the
browser language it reads never affect its result. -/
theorem detectLanguage_url_only :
    (∀ env, detectLanguage env = getLanguageFromURL env) ∧
    (∀ e1 e2 : Env, e1.pathname = e2.pathname → detectLanguage e1 = detectLanguage e2) := by
  constructor
  · intro env
    rfl
  · intro e1 e2 h
    simp [detectLanguage, getLanguageFromURL, h]

theorem detectLanguage_url_only_witness :
    detectLanguage ⟨str "/en/pages/about/", [], some (str "ja"), str "ja"⟩ =
      detectLanguage ⟨str "/en/pages/about/", str "#x", none, str "en-US"⟩ :=
  detectLanguage_url_only.2 _ _ rfl

/-- Claim C6: `init` writes the storage key only when no persisted preference
exists; what it writes is the locale resolved from the current path, and in
that case it does not navigate; when a preference exists `init` writes
nothing. -/
theorem init_first_visit_only (env : Env)
    (hw : ∀ l, env.savedLanguage = some l → l ≠ []) :
    ((init env).savedPref ≠ none → env.savedLanguage = none) ∧
    (∀ v, (init env).savedPref = some v →
       v = getLanguageFromURL env ∧ (init env).redirectedTo = none) ∧
    (env.savedLanguage ≠ none → (init env).savedPref = none) := by
  cases hs : env.savedLanguage with
  | some l =>
    have hl : l.isEmpty = false := by
      cases l with
      | nil => exact absurd rfl (hw [] hs)
      | cons c t => rfl
    have hred : shouldAutoRedirect env = false := by
      simp [shouldAutoRedirect, getSavedLanguage, jsTruthy, hs, hl]
    simp [init, handleAutoRedirect, hred, getSavedLanguage, jsTruthy, hs, hl]
  | none =>
    by_cases hred : shouldAutoRedirect env = true
    · simp [init, handleAutoRedirect, hred]
    · simp [init, handleAutoRedirect, hred, getSavedLanguage, jsTruthy, hs]

theorem init_first_visit_only_witness :
    str "ja" = getLanguageFromURL ⟨str "/services/", [], none, []⟩ ∧
    (init ⟨str "/services/", [], none, []⟩).redirectedTo = none :=
  (init_first_visit_only ⟨str "/services/", [], none, []⟩
      (fun _ h => nomatch h)).2.1 (str "ja") (by decide)

/-- Claim C2 counterexample: for the supported locale `ja` and the path
`/en/en/`, the URL built for `ja` (with an empty hash) resolves to `en`,
not `ja` — `getRelativePath` strips only one `/en` prefix. -/
theorem url_roundtrip_counterexample :
    (str "ja") ∈ LANGUAGES ∧
    buildLanguageURL ⟨str "/en/en/", [], none, []⟩ (str "ja") = str "/en/" ∧
    getLanguageFromURL ⟨buildLanguageURL ⟨str "/en/en/", [], none, []⟩ (str "ja"),
      [], none, []⟩ ≠ str "ja" := by
  decide

theorem getLanguageFromURL_en_of_en (env : Env)
    (h : jsStartsWith env.pathname (str "/en/") = true) :
    getLanguageFromURL env = str "en" := by
  simp [getLanguageFromURL, h]

theorem getLanguageFromURL_ja_of_not_en (env : Env)
    (h1 : jsStartsWith env.pathname (str "/en/") = false)
    (h2 : env.pathname ≠ str "/en") :
    getLanguageFromURL env = str "ja" := by
  have h2b : (env.pathname == str "/en") = false := by simpa using h2
  simp [getLanguageFromURL, h1, h2b]

theorem buildLanguageURL_en_eq (env : Env) :
    buildLanguageURL env (str "en") =
      (str "/en" ++ (if getRelativePath env == str "/" then str "/"
                     else getRelativePath env)) ++ env.hash := rfl

theorem buildLanguageURL_ja_eq (env : Env) :
    buildLanguageURL env (str "ja") = getRelativePath env ++ env.hash := rfl

/-- Claim C2 (amended): for every supported locale L and every path P that starts
with `/` and whose locale-stripped relative path is not itself under the
`/en` prefix, resolving the locale from the URL built for L from P with an
empty hash yields L. -/
theorem url_roundtrip (L P : JStr) (hL : L ∈ LANGUAGES)
    (hP : jsStartsWith P (str "/") = true)
    (h1 : jsStartsWith (getRelativePath ⟨P, [], none, []⟩) (str "/en/") = false)
    (h2 : getRelativePath ⟨P, [], none, []⟩ ≠ str "/en") :
    getLanguageFromURL ⟨buildLanguageURL ⟨P, [], none, []⟩ L, [], none, []⟩ = L := by
  have hcases : L = str "ja" ∨ L = str "en" := by
    simpa [LANGUAGES] using hL
  rcases hcases with rfl | rfl
  · have hb : buildLanguageURL ⟨P, [], none, []⟩ (str "ja") =
        getRelativePath ⟨P, [], none, []⟩ := by
      rw [buildLanguageURL_ja_eq]
      exact List.append_nil _
    rw [hb]
    exact getLanguageFromURL_ja_of_not_en ⟨_, [], none, []⟩ h1 h2
  · have hX : jsStartsWith
        (if getRelativePath ⟨P, [], none, []⟩ == str "/" then str "/"
         else getRelativePath ⟨P, [], none, []⟩) (str "/") = true := by
      by_cases hr : (getRelativePath ⟨P, [], none, []⟩ == str "/") = true
      · rw [if_pos hr]
        decide
      · rw [if_neg hr]
        exact getRelativePath_leadingSlash ⟨P, [], none, []⟩ hP
    have hb : buildLanguageURL ⟨P, [], none, []⟩ (str "en") =
        str "/en" ++ (if getRelativePath ⟨P, [], none, []⟩ == str "/" then str "/"
                      else getRelativePath ⟨P, [], none, []⟩) := by
      rw [buildLanguageURL_en_eq]
      exact List.append_nil _
    rw [hb]
    exact getLanguageFromURL_en_of_en ⟨_, [], none, []⟩ (en_concat_startsWith _ hX)

theorem url_roundtrip_witness :
    getLanguageFromURL ⟨buildLanguageURL ⟨str "/services/", [], none, []⟩ (str "en"),
      [], none, []⟩ = str "en" :=
  url_roundtrip (str "en") (str "/services/") (by decide) (by decide) (by decide)
    (by decide)

/-- Claim C8: `switchLanguage` on an unsupported locale only warns — no preference
is persisted and no navigation happens; on a supported locale it persists
the preference and navigates exactly when the computed target URL differs
from the current `pathname + hash`, and any navigation goes to that target
URL. -/
theorem switchLanguage_behavior (env : Env) (t : JStr) :
    (t ∉ LANGUAGES → switchLanguage env t =
       { warnedUnsupported := true, savedPref := none, navigatedTo := none }) ∧
    (t ∈ LANGUAGES →
       (switchLanguage env t).warnedUnsupported = false ∧
       (switchLanguage env t).savedPref = some t ∧
       ((switchLanguage env t).navigatedTo.isSome = true ↔
          buildLanguageURL env t ≠ env.pathname ++ env.hash) ∧
       (∀ u, (switchLanguage env t).navigatedTo = some u →
          u = buildLanguageURL env t)) := by
  constructor
  · intro hmem
    have hc : LANGUAGES.contains t = false := by
      rw [← Bool.not_eq_true]
      intro hco
      exact hmem (List.elem_iff.mp hco)
    unfold switchLanguage
    rw [hc]
    rfl
  · intro hmem
    have hc : LANGUAGES.contains t = true := List.elem_iff.mpr hmem
    have heq : switchLanguage env t =
        { warnedUnsupported := false, savedPref := some t,
          navigatedTo := if buildLanguageURL env t != env.pathname ++ env.hash then
              some (buildLanguageURL env t)
            else none } := by
      unfold switchLanguage
      rw [hc]
      rfl
    refine ⟨by rw [heq], by rw [heq], ?_, ?_⟩
    · rw [heq]
      by_cases hd : buildLanguageURL env t = env.pathname ++ env.hash
      · have hb : (buildLanguageURL env t != env.pathname ++ env.hash) = false := by
          simp [hd]
        simp [hb, hd]
      · have hb : (buildLanguageURL env t != env.pathname ++ env.hash) = true := by
          simp [hd]
        simp [hb, hd]
    · intro u hu
      rw [heq] at hu
      by_cases hd : buildLanguageURL env t = env.pathname ++ env.hash
      · have hb : (buildLanguageURL env t != env.pathname ++ env.hash) = false := by
          simp [hd]
        simp [hb] at hu
      · have hb : (buildLanguageURL env t != env.pathname ++ env.hash) = true := by
          simp [hd]
        simp [hb] at hu
        exact hu.symm

theorem switchLanguage_behavior_witness :
    switchLanguage ⟨str "/", [], none, []⟩ (str "fr") =
      { warnedUnsupported := true, savedPref := none, navigatedTo := none } :=
  (switchLanguage_behavior ⟨str "/", [], none, []⟩ (str "fr")).1 (by decide)

/-- Claim C10: when `handleAutoRedirect` fires (which requires a root-anchored
path), the target URL it navigates to resolves to `en`, so on the target
page `shouldAutoRedirect` is false for every saved preference and browser
language — the redirect cannot fire again or loop. -/
theorem autoRedirect_cannot_loop (env : Env) (target : JStr)
    (hP : jsStartsWith env.pathname (str "/") = true)
    (hh : env.hash = [])
    (hred : handleAutoRedirect env = some target) :
    ∀ env2 : Env, env2.pathname = target →
      getLanguageFromURL env2 = str "en" ∧ shouldAutoRedirect env2 = false := by
  intro env2 h2
  have htarget : target = buildLanguageURL env (str "en") := by
    unfold handleAutoRedirect at hred
    by_cases hs : shouldAutoRedirect env = true
    · rw [if_pos hs] at hred
      exact (Option.some_inj.mp hred).symm
    · rw [if_neg hs] at hred
      exact absurd hred (by simp)
  have hX : jsStartsWith
      (if getRelativePath env == str "/" then str "/" else getRelativePath env)
      (str "/") = true := by
    by_cases hr : (getRelativePath env == str "/") = true
    · rw [if_pos hr]
      decide
    · rw [if_neg hr]
      exact getRelativePath_leadingSlash env hP
  have hen : jsStartsWith target (str "/en/") = true := by
    rw [htarget, buildLanguageURL_en_eq, hh, List.append_nil]
    exact en_concat_startsWith _ hX
  have hlang : getLanguageFromURL env2 = str "en" := by
    apply getLanguageFromURL_en_of_en
    rw [h2]
    exact hen
  refine ⟨hlang, ?_⟩
  unfold shouldAutoRedirect
  by_cases ht : jsTruthy (getSavedLanguage env2) = true
  · simp [ht]
  · have hne : ((str "en" : JStr) == str "ja") = false := by decide
    simp [ht, hlang, hne]

theorem autoRedirect_cannot_loop_witness :
    getLanguageFromURL ⟨str "/en/", [], none, str "en-US"⟩ = str "en" ∧
    shouldAutoRedirect ⟨str "/en/", [], none, str "en-US"⟩ = false :=
  autoRedirect_cannot_loop ⟨str "/", [], none, str "en-US"⟩ (str "/en/")
    (by decide) rfl (by decide) ⟨str "/en/", [], none, str "en-US"⟩ rfl

/-- Claim C7: with a registered component and a present placeholder,
`loadComponent` injects the fetched markup and dispatches `componentLoaded`
(carrying the component name) exactly when the fetch succeeds; on a
non-success HTTP status or a transport failure it only logs and leaves the
placeholder untouched. -/
theorem loadComponent_outcomes (env : Env) (page : Page) (name : JStr) (c : Component)
    (hc : lookupComponent name = some c)
    (hp : page.hasSelector c.selector = true) :
    (∀ html, page.fetch (componentURL env name) = FetchResult.ok html →
       loadComponent env page name =
         { warned := false, injected := some html, eventDispatched := some name,
           errorLogged := false }) ∧
    (∀ status, page.fetch (componentURL env name) = FetchResult.httpError status →
       loadComponent env page name =
         { warned := false, injected := none, eventDispatched := none,
           errorLogged := true }) ∧
    (page.fetch (componentURL env name) = FetchResult.networkError →
       loadComponent env page name =
         { warned := false, injected := none, eventDispatched := none,
           errorLogged := true }) ∧
    (((loadComponent env page name).injected.isSome = true ∧
      (loadComponent env page name).eventDispatched = some name) ↔
       ∃ html, page.fetch (componentURL env name) = FetchResult.ok html) := by
  have heq : loadComponent env page name =
      match page.fetch (componentURL env name) with
      | .ok html =>
        { warned := false, injected := some html, eventDispatched := some name,
          errorLogged := false }
      | .httpError _ =>
        { warned := false, injected := none, eventDispatched := none, errorLogged := true }
      | .networkError =>
        { warned := false, injected := none, eventDispatched := none, errorLogged := true } := by
    unfold loadComponent
    rw [hc]
    simp [hp]
  refine ⟨?_, ?_, ?_, ?_⟩
  · intro html hf
    rw [heq, hf]
  · intro status hf
    rw [heq, hf]
  · intro hf
    rw [heq, hf]
  · rw [heq]
    cases hfetch : page.fetch (componentURL env name) with
    | ok html => simp [hfetch]
    | httpError status => simp [hfetch]
    | networkError => simp [hfetch]

theorem loadComponent_outcomes_witness :
    loadComponent ⟨str "/", [], none, []⟩
        ⟨fun _ => true, fun _ => FetchResult.networkError⟩ (str "header") =
      { warned := false, injected := none, eventDispatched := none,
        errorLogged := true } :=
  (loadComponent_outcomes ⟨str "/", [], none, []⟩
      ⟨fun _ => true, fun _ => FetchResult.networkError⟩ (str "header")
      ⟨str "#header-placeholder", str "header.html"⟩ (by decide) rfl).2.2.1 rfl

/-- Claim C3: in the scenario where one fragment fetch returns HTTP 404 and the
other returns 200 with a body, `loadAll` settles both component attempts
(the failing placeholder untouched, the succeeding one populated), and then
runs the two post-steps — Flowbite re-initialization (a no-op when the hook
is absent) followed by navigation highlighting — each exactly once, after
both load attempts have settled. -/
theorem loadAll_mixed_settles_then_poststeps (env : Env) (page : Page) (hook : Bool)
    (body : JStr)
    (hs1 : page.hasSelector (str "#header-placeholder") = true)
    (hs2 : page.hasSelector (str "#footer-placeholder") = true)
    (hf1 : page.fetch (componentURL env (str "header")) = FetchResult.httpError 404)
    (hf2 : page.fetch (componentURL env (str "footer")) = FetchResult.ok body) :
    loadAllTrace env page hook =
      [Event.settled (str "header") false, Event.settled (str "footer") true,
       Event.flowbiteStep hook, Event.navHighlightStep] ∧
    (loadComponent env page (str "header")).injected = none ∧
    (loadComponent env page (str "header")).errorLogged = true ∧
    (loadComponent env page (str "footer")).injected = some body ∧
    (loadComponent env page (str "footer")).eventDispatched = some (str "footer") := by
  have hlh : lookupComponent (str "header") =
      some ⟨str "#header-placeholder", str "header.html"⟩ := by decide
  have hlf : lookupComponent (str "footer") =
      some ⟨str "#footer-placeholder", str "footer.html"⟩ := by decide
  have hH : loadComponent env page (str "header") =
      { warned := false, injected := none, eventDispatched := none,
        errorLogged := true } := by
    unfold loadComponent
    rw [hlh]
    simp [hs1, hf1]
  have hF : loadComponent env page (str "footer") =
      { warned := false, injected := some body, eventDispatched := some (str "footer"),
        errorLogged := false } := by
    unfold loadComponent
    rw [hlf]
    simp [hs2, hf2]
  refine ⟨?_, by rw [hH], by rw [hH], by rw [hF], by rw [hF]⟩
  unfold loadAllTrace loadAllResults componentNames components initFlowbiteEvents
  simp [hH, hF]

theorem contains_addClass_self (cs : List JStr) (c : JStr) :
    (addClass cs c).contains c = true := by
  unfold addClass
  by_cases h : cs.contains c = true
  · rw [if_pos h]
    exact h
  · rw [if_neg h]
    exact List.elem_iff.mpr (by simp)

theorem contains_addClass_of_contains (cs : List JStr) (c d : JStr)
    (h : cs.contains c = true) : (addClass cs d).contains c = true := by
  unfold addClass
  by_cases hd : cs.contains d = true
  · rw [if_pos hd]
    exact h
  · rw [if_neg hd]
    exact List.elem_iff.mpr (List.mem_append_left _ (List.elem_iff.mp h))

theorem contains_removeClass (cs : List JStr) (c d : JStr) (hne : c ≠ d)
    (h : cs.contains c = true) : (removeClass cs d).contains c = true := by
  unfold removeClass
  exact List.elem_iff.mpr (List.mem_filter.mpr ⟨List.elem_iff.mp h, by simp [hne]⟩)

theorem isMarkedActive_applyActiveNav (l : NavLink) :
    isMarkedActive (applyActiveNav l) = true := by
  have hb : (removeClass
      (addClass (addClass l.classes (str "text-blue-600")) (str "md:text-blue-600"))
      (str "text-gray-900")).contains (str "text-blue-600") = true :=
    contains_removeClass _ _ _ (by decide)
      (contains_addClass_of_contains _ _ _ (contains_addClass_self _ _))
  have hm : (removeClass
      (addClass (addClass l.classes (str "text-blue-600")) (str "md:text-blue-600"))
      (str "text-gray-900")).contains (str "md:text-blue-600") = true :=
    contains_removeClass _ _ _ (by decide) (contains_addClass_self _ _)
  unfold isMarkedActive applyActiveNav
  simp [hb, hm]
  exact ⟨List.elem_iff.mp hb, List.elem_iff.mp hm⟩

theorem isMarkedActive_untouched (l : NavLink) (hfresh : l.ariaCurrent = none) :
    isMarkedActive l = false := by
  have hn : ((none : Option JStr) == some (str "page")) = false := by decide
  unfold isMarkedActive
  rw [hfresh]
  simp [hn]

theorem navIsActive_iff (env : Env) (p : JStr) (hid : p ≠ []) :
    navIsActive env p = true ↔
      ((p = str "home" ∧
         (normalizedNavPath env = str "/" ∨ normalizedNavPath env = str "/index.html")) ∨
        jsIncludes (normalizedNavPath env) (str "/pages/" ++ p ++ str "/") = true) := by
  have hne : p.isEmpty = false := by
    cases p with
    | nil => exact absurd rfl hid
    | cons c t => rfl
  unfold navIsActive
  by_cases h1 : (p == str "home" &&
      (normalizedNavPath env == str "/" || normalizedNavPath env == str "/index.html")) = true
  · rw [if_pos h1]
    exact iff_of_true rfl (Or.inl (by simpa using h1))
  · rw [if_neg h1]
    by_cases h2 : (!p.isEmpty &&
        jsIncludes (normalizedNavPath env) (str "/pages/" ++ p ++ str "/")) = true
    · rw [if_pos h2]
      have h2' := h2
      rw [Bool.and_eq_true] at h2'
      exact iff_of_true rfl (Or.inr h2'.2)
    · rw [if_neg h2]
      refine iff_of_false (by simp) ?_
      rintro (⟨hp, hroot⟩ | hinc)
      · rcases hroot with hr | hr
        · exact h1 (by simp [hp, hr])
        · exact h1 (by simp [hp, hr])
      · refine h2 ?_
        rw [hne, hinc]
        rfl

/-- Claim C4 (amended): a nav element with a non-empty page identifier is marked
active (blue classes plus `aria-current="page"`) iff the identifier is
`home` and the normalized path is `/` or `/index.html`, or the normalized
path contains `/pages/<identifier>/`; concretely, on `/en/pages/about/` the
`about` item is marked and `home` is not, and on `/` `home` is marked. -/
theorem highlightActiveNav_marking :
    (∀ (env : Env) (l : NavLink), l.ariaCurrent = none → l.dataPage ≠ [] →
      (isMarkedActive (highlightNavLink env l) = true ↔
        ((l.dataPage = str "home" ∧
           (normalizedNavPath env = str "/" ∨ normalizedNavPath env = str "/index.html")) ∨
          jsIncludes (normalizedNavPath env)
            (str "/pages/" ++ l.dataPage ++ str "/") = true))) ∧
    isMarkedActive (highlightNavLink ⟨str "/en/pages/about/", [], none, []⟩
      ⟨str "about", [str "text-gray-900"], none⟩) = true ∧
    isMarkedActive (highlightNavLink ⟨str "/en/pages/about/", [], none, []⟩
      ⟨str "home", [str "text-gray-900"], none⟩) = false ∧
    isMarkedActive (highlightNavLink ⟨str "/", [], none, []⟩
      ⟨str "home", [str "text-gray-900"], none⟩) = true := by
  refine ⟨?_, by decide, by decide, by decide⟩
  intro env l hfresh hid
  unfold highlightNavLink
  by_cases ha : navIsActive env l.dataPage = true
  · rw [if_pos ha, isMarkedActive_applyActiveNav]
    exact iff_of_true rfl ((navIsActive_iff env l.dataPage hid).mp ha)
  · rw [if_neg ha, isMarkedActive_untouched l hfresh]
    exact iff_of_false (by simp)
      (fun hcond => ha ((navIsActive_iff env l.dataPage hid).mpr hcond))

theorem highlightActiveNav_marking_witness :
    isMarkedActive (highlightNavLink ⟨str "/en/pages/services/", [], none, []⟩
      ⟨str "services", [str "text-gray-900"], none⟩) = true :=
  (highlightActiveNav_marking.1 ⟨str "/en/pages/services/", [], none, []⟩
      ⟨str "services", [str "text-gray-900"], none⟩ rfl (by decide)).mpr
    (Or.inr (by decide))

/-- Claim C4 counterexample: on the path `/index.html` (default locale), the code
marks the `home` nav item active although the normalized path is not the
site root `/` and contains no `/pages/home/` segment. -/
theorem highlightNav_index_html_counterexample :
    isMarkedActive (highlightNavLink ⟨str "/index.html", [], none, []⟩
      ⟨str "home", [str "text-gray-900"], none⟩) = true ∧
    normalizedNavPath ⟨str "/index.html", [], none, []⟩ ≠ str "/" ∧
    jsIncludes (normalizedNavPath ⟨str "/index.html", [], none, []⟩)
      (str "/pages/" ++ str "home" ++ str "/") = false := by
  decide

theorem loadAll_mixed_settles_then_poststeps_witness :
    loadAllTrace ⟨str "/", [], none, []⟩
      ⟨fun _ => true,
       fun url => if url == str "/components/header.html" then FetchResult.httpError 404
                  else FetchResult.ok (str "<nav></nav>")⟩ false =
      [Event.settled (str "header") false, Event.settled (str "footer") true,
       Event.flowbiteStep false, Event.navHighlightStep] :=
  (loadAll_mixed_settles_then_poststeps ⟨str "/", [], none, []⟩
      ⟨fun _ => true,
       fun url => if url == str "/components/header.html" then FetchResult.httpError 404
                  else FetchResult.ok (str "<nav></nav>")⟩ false (str "<nav></nav>")
      rfl rfl (by decide) (by decide)).1
